import Mathlib

/-!
Verification development for the data layer of the hubcaps repository:
the flexible DateTime deserializer of src/datetime.rs, the sparse request
encoders and builders of src/rep.rs (serialized through the compact JSON
writer of rustc_serialize), and the star-status helper of src/stars.rs.
Rust machine integers are modelled as Nat or Int with explicit wrapping
where the source casts; fallible operations return Except or Option.
-/

/-! ## The compact JSON writer of rustc_serialize, as used by src/rep.rs -/

/-- One lowercase hexadecimal digit, as used by the JSON escape sequences. -/
def hexDigit (n : Nat) : Char :=
  if n < 10 then Char.ofNat (48 + n) else Char.ofNat (87 + n)

/-- Four-digit lowercase hexadecimal rendering of a code point below 0x10000. -/
def hex4 (n : Nat) : String :=
  String.mk [hexDigit (n / 4096 % 16), hexDigit (n / 256 % 16),
             hexDigit (n / 16 % 16), hexDigit (n % 16)]

/-- Modelled from rustc_serialize json escape_str: the escaping of one
    character inside a JSON string literal. Quote and backslash take a
    backslash escape, the named control characters take their short escapes,
    all other control characters and delete take a u-escape, and every other
    character stands for itself. -/
def escapeJsonChar (c : Char) : String :=
  if c = '"' then "\\\""
  else if c = '\\' then "\\\\"
  else if c = '\x08' then "\\b"
  else if c = '\x0c' then "\\f"
  else if c = '\n' then "\\n"
  else if c = '\r' then "\\r"
  else if c = '\t' then "\\t"
  else if c.toNat < 32 ∨ c.toNat = 127 then "\\u" ++ hex4 c.toNat
  else String.singleton c

/-- Modelled from rustc_serialize json escape_str: a quoted, escaped JSON
    string literal. -/
def escapeStr (s : String) : String :=
  "\"" ++ String.join (s.toList.map escapeJsonChar) ++ "\""

/-- Modelled from rustc_serialize json Encoder emit_struct in compact mode: a
    zero-length struct writes an empty object directly, otherwise the body
    written by the field emitter is wrapped in braces. -/
def emitStruct (len : Nat) (body : String) : String :=
  if len = 0 then "\x7b\x7d" else "\x7b" ++ body ++ "\x7d"

/-- Modelled from rustc_serialize json Encoder emit_struct_field in compact
    mode: a separating comma is written exactly when the supplied index is
    nonzero, then the escaped field name, a colon, and the encoded value. -/
def emitStructField (name : String) (idx : Nat) (val : String) : String :=
  (if idx ≠ 0 then "," else "") ++ escapeStr name ++ ":" ++ val

/-- Modelled from rustc_serialize: Encodable for bool writes true or false. -/
def encodeBool (b : Bool) : String := if b then "true" else "false"

/-- Modelled from rustc_serialize: Encodable for an optional string value
    emits the inner value when present (emit_option_some is a transparent
    wrapper) and the literal null when absent (emit_option_none). -/
def encodeOptStr : Option String → String
  | some s => escapeStr s
  | none => "null"

/-- Modelled from rustc_serialize: Encodable for an optional bool value. -/
def encodeOptBool : Option Bool → String
  | some b => encodeBool b
  | none => "null"

/-- Modelled from rustc_serialize json Encoder emit_seq and emit_seq_elt for a
    vector of strings: an empty vector writes the empty array directly, and a
    comma precedes every element whose index is nonzero. -/
def encodeVecStr (xs : List String) : String :=
  if xs.length = 0 then "[]"
  else "[" ++ String.join (xs.enum.map
    (fun p => (if p.1 ≠ 0 then "," else "") ++ escapeStr p.2)) ++ "]"

/-- Modelled from rustc_serialize: Encodable for an optional string vector. -/
def encodeOptVecStr : Option (List String) → String
  | some xs => encodeVecStr xs
  | none => "null"

/-- State step of the repeated source pattern for one optional struct field:
    when the field is present the running index is incremented and the field
    is emitted at the new index after the output written so far, and when the
    field is absent the state is unchanged. This renders the imperative
    sequence of the manual Encodable impls in src/rep.rs: a presence test,
    an index increment, and an emit_struct_field call. -/
def emitOptional (name : String) (present : Bool) (val : String)
    (st : Nat × String) : Nat × String :=
  if present then (st.1 + 1, st.2 ++ emitStructField name (st.1 + 1) val) else st

/-- Variant of the optional-field step for the impls of src/rep.rs whose
    running index is a signed isize started at minus one and cast to usize at
    each emission (GistReq and PullEdit). -/
def emitOptionalI (name : String) (present : Bool) (val : String)
    (st : Int × String) : Int × String :=
  if present then (st.1 + 1, st.2 ++ emitStructField name (st.1 + 1).toNat val) else st

/-! ## The State enum of src/statuses.rs -/

/-- Modelled from the spec: the state enum lives in src/statuses.rs, which is
    not part of the sources; the spec lists pending as a representative value
    and requires an enum of commit-status states. -/
inductive State
  | pending
  | success
  | error
  | failure
deriving DecidableEq, Repr

/-- Modelled from the spec: the lowercase textual tag of a state value. -/
def State.tag : State → String
  | .pending => "pending"
  | .success => "success"
  | .error => "error"
  | .failure => "failure"

/-- Modelled from the spec: a state serializes as its lowercase textual tag
    rendered as a JSON string, never as a numeric discriminant. -/
def encodeState (s : State) : String := escapeStr s.tag

/-! ## DeploymentReq and its builder, src/rep.rs lines 60 to 184 -/

/-- The DeploymentReq record of src/rep.rs: one mandatory commit reference and
    six optional fields. The payload field holds the serialized JSON payload
    string, as in the source where the builder stringifies its Json value at
    build time. -/
structure DeploymentReq where
  commit_ref : String
  task : Option String
  auto_merge : Option Bool
  required_contexts : Option (List String)
  payload : Option String
  environment : Option String
  description : Option String
deriving DecidableEq, Repr

/-- The manual Encodable impl for DeploymentReq: the mandatory commit_ref is
    emitted under the wire name ref at index zero, then each optional field in
    declaration order is emitted only when present, with the running index
    incremented before each emission. -/
def encodeDeploymentReq (r : DeploymentReq) : String :=
  let st : Nat × String := (0, emitStructField "ref" 0 (escapeStr r.commit_ref))
  let st := emitOptional "task" r.task.isSome (encodeOptStr r.task) st
  let st := emitOptional "auto_merge" r.auto_merge.isSome (encodeOptBool r.auto_merge) st
  let st := emitOptional "required_contexts" r.required_contexts.isSome
    (encodeOptVecStr r.required_contexts) st
  let st := emitOptional "payload" r.payload.isSome (encodeOptStr r.payload) st
  let st := emitOptional "environment" r.environment.isSome (encodeOptStr r.environment) st
  let st := emitOptional "description" r.description.isSome (encodeOptStr r.description) st
  emitStruct 1 st.2

/-- The DeploymentReqBuilder of src/rep.rs. The payload field holds the
    serialized form of the Json value the source stores. -/
structure DeploymentReqBuilder where
  commit_ref : String := ""
  task : Option String := none
  auto_merge : Option Bool := none
  required_contexts : Option (List String) := none
  payload : Option String := none
  environment : Option String := none
  description : Option String := none

/-- DeploymentReqBuilder::new: only the mandatory commit reference is set. -/
def DeploymentReqBuilder.new (commit : String) : DeploymentReqBuilder :=
  { commit_ref := commit }

/-- The setter named task in the source; the set_ prefix is used because the
    field accessor already carries the source name. -/
def DeploymentReqBuilder.set_task (b : DeploymentReqBuilder) (t : String) :
    DeploymentReqBuilder := { b with task := some t }

/-- The setter named auto_merge in the source. -/
def DeploymentReqBuilder.set_auto_merge (b : DeploymentReqBuilder) (m : Bool) :
    DeploymentReqBuilder := { b with auto_merge := some m }

/-- The setter named required_contexts in the source. -/
def DeploymentReqBuilder.set_required_contexts (b : DeploymentReqBuilder)
    (ctxs : List String) : DeploymentReqBuilder :=
  { b with required_contexts := some ctxs }

/-- The setter named payload in the source, which stores the to_json image of
    its argument; modelled by the serialized payload string. -/
def DeploymentReqBuilder.set_payload (b : DeploymentReqBuilder) (pl : String) :
    DeploymentReqBuilder := { b with payload := some pl }

/-- The setter named environment in the source. -/
def DeploymentReqBuilder.set_environment (b : DeploymentReqBuilder) (env : String) :
    DeploymentReqBuilder := { b with environment := some env }

/-- The setter named description in the source. -/
def DeploymentReqBuilder.set_description (b : DeploymentReqBuilder) (desc : String) :
    DeploymentReqBuilder := { b with description := some desc }

/-- DeploymentReqBuilder::build: an immutable snapshot of the accumulated
    fields; the payload Json value is stringified, which on this model of
    payloads is the identity. -/
def DeploymentReqBuilder.build (b : DeploymentReqBuilder) : DeploymentReq :=
  { commit_ref := b.commit_ref
    task := b.task
    auto_merge := b.auto_merge
    required_contexts := b.required_contexts
    payload := b.payload
    environment := b.environment
    description := b.description }

/-- DeploymentReq::builder. -/
def DeploymentReq.builder (commit : String) : DeploymentReqBuilder :=
  DeploymentReqBuilder.new commit

/-! ## Content, GistReq, src/rep.rs lines 224 to 301 -/

/-- The Content record of src/rep.rs: an optional filename and the file
    content. -/
structure Content where
  filename : Option String
  content : String
deriving DecidableEq, Repr

/-- Content::new. -/
def Content.new (filename : Option String) (content : String) : Content :=
  { filename := filename, content := content }

/-- The manual Encodable impl for Content: filename is emitted only when
    present, and both emit_struct_field calls pass index zero, exactly as the
    source does. -/
def encodeContent (c : Content) : String :=
  emitStruct 1
    ((if c.filename.isSome then emitStructField "filename" 0 (encodeOptStr c.filename) else "")
      ++ emitStructField "content" 0 (escapeStr c.content))

/-- Modelled from rustc_serialize: Encodable for a map from strings to
    Content values, written as a JSON object with a comma before every entry
    whose index is nonzero. The Rust HashMap iterates in an unspecified
    order; the map is modelled as an association list in a fixed order. -/
def encodeFiles (fs : List (String × Content)) : String :=
  if fs.length = 0 then "\x7b\x7d"
  else "\x7b" ++ String.join (fs.enum.map
    (fun p => (if p.1 ≠ 0 then "," else "") ++ escapeStr p.2.1 ++ ":" ++ encodeContent p.2.2))
    ++ "\x7d"

/-- The GistReq record of src/rep.rs: optional description and public flag,
    and the mandatory files map. -/
structure GistReq where
  description : Option String
  public : Option Bool
  files : List (String × Content)
deriving DecidableEq, Repr

/-- The manual Encodable impl for GistReq: the running index is an isize
    started at minus one; description and public are emitted only when
    present, then the mandatory files field is always emitted last, after one
    final increment. -/
def encodeGistReq (r : GistReq) : String :=
  let st : Int × String := (-1, "")
  let st := emitOptionalI "description" r.description.isSome (encodeOptStr r.description) st
  let st := emitOptionalI "public" r.public.isSome (encodeOptBool r.public) st
  let st := (st.1 + 1, st.2 ++ emitStructField "files" (st.1 + 1).toNat (encodeFiles r.files))
  emitStruct 1 st.2

/-- GistReq::new: the description is optional, the public flag is always set
    to the given value, and every file content is wrapped with no filename. -/
def GistReq.new (desc : Option String) (public : Bool)
    (files : List (String × String)) : GistReq :=
  { description := desc
    public := some public
    files := files.map (fun kv => (kv.1, Content.new none kv.2)) }

/-! ## PullEdit and its builder, src/rep.rs lines 440 to 522 -/

/-- The PullEdit record of src/rep.rs: three optional fields and no mandatory
    field. -/
structure PullEdit where
  title : Option String
  body : Option String
  state : Option String
deriving DecidableEq, Repr

/-- The manual Encodable impl for PullEdit: an isize index started at minus
    one, and each field emitted only when present, in declaration order. -/
def encodePullEdit (r : PullEdit) : String :=
  let st : Int × String := (-1, "")
  let st := emitOptionalI "title" r.title.isSome (encodeOptStr r.title) st
  let st := emitOptionalI "body" r.body.isSome (encodeOptStr r.body) st
  let st := emitOptionalI "state" r.state.isSome (encodeOptStr r.state) st
  emitStruct 1 st.2

/-- PullEdit::new. -/
def PullEdit.new (title body state : Option String) : PullEdit :=
  { title := title, body := body, state := state }

/-- The PullEditBuilder of src/rep.rs. -/
structure PullEditBuilder where
  title : Option String := none
  body : Option String := none
  state : Option String := none

/-- PullEditBuilder::new: every field starts absent. -/
def PullEditBuilder.new : PullEditBuilder := {}

/-- The setter named title in the source. -/
def PullEditBuilder.set_title (b : PullEditBuilder) (t : String) : PullEditBuilder :=
  { b with title := some t }

/-- The setter named body in the source. -/
def PullEditBuilder.set_body (b : PullEditBuilder) (s : String) : PullEditBuilder :=
  { b with body := some s }

/-- The setter named state in the source. -/
def PullEditBuilder.set_state (b : PullEditBuilder) (s : String) : PullEditBuilder :=
  { b with state := some s }

/-- PullEditBuilder::build. -/
def PullEditBuilder.build (b : PullEditBuilder) : PullEdit :=
  { title := b.title, body := b.body, state := b.state }

/-! ## ReleaseReq and its builder, src/rep.rs lines 659 to 734 -/

/-- The ReleaseReq record of src/rep.rs: a mandatory tag name and five
    optional fields. Its Encodable impl is derived, not manual. -/
structure ReleaseReq where
  tag_name : String
  target_commitish : Option String
  name : Option String
  body : Option String
  draft : Option Bool
  prerelease : Option Bool
deriving DecidableEq, Repr

/-- The derived RustcEncodable impl for ReleaseReq: every field is emitted at
    its declaration index, six in total, and absent optional values are
    written as null by the Option encoder. -/
def encodeReleaseReq (r : ReleaseReq) : String :=
  emitStruct 6
    (emitStructField "tag_name" 0 (escapeStr r.tag_name)
      ++ emitStructField "target_commitish" 1 (encodeOptStr r.target_commitish)
      ++ emitStructField "name" 2 (encodeOptStr r.name)
      ++ emitStructField "body" 3 (encodeOptStr r.body)
      ++ emitStructField "draft" 4 (encodeOptBool r.draft)
      ++ emitStructField "prerelease" 5 (encodeOptBool r.prerelease))

/-- ReleaseReq::new. -/
def ReleaseReq.new (tag : String) (commit name body : Option String)
    (draft prerelease : Option Bool) : ReleaseReq :=
  { tag_name := tag
    target_commitish := commit
    name := name
    body := body
    draft := draft
    prerelease := prerelease }

/-- The ReleaseBuilder of src/rep.rs. -/
structure ReleaseBuilder where
  tag : String := ""
  commitish : Option String := none
  name : Option String := none
  body : Option String := none
  draft : Option Bool := none
  prerelease : Option Bool := none

/-- ReleaseBuilder::new: only the mandatory tag is set. -/
def ReleaseBuilder.new (tag : String) : ReleaseBuilder := { tag := tag }

/-- The setter named commitish in the source. -/
def ReleaseBuilder.set_commitish (b : ReleaseBuilder) (c : String) : ReleaseBuilder :=
  { b with commitish := some c }

/-- The setter named name in the source. -/
def ReleaseBuilder.set_name (b : ReleaseBuilder) (n : String) : ReleaseBuilder :=
  { b with name := some n }

/-- The setter named body in the source. -/
def ReleaseBuilder.set_body (b : ReleaseBuilder) (s : String) : ReleaseBuilder :=
  { b with body := some s }

/-- The setter named draft in the source. -/
def ReleaseBuilder.set_draft (b : ReleaseBuilder) (d : Bool) : ReleaseBuilder :=
  { b with draft := some d }

/-- The setter named prerelease in the source. -/
def ReleaseBuilder.set_prerelease (b : ReleaseBuilder) (p : Bool) : ReleaseBuilder :=
  { b with prerelease := some p }

/-- ReleaseBuilder::build, which forwards to ReleaseReq::new. -/
def ReleaseBuilder.build (b : ReleaseBuilder) : ReleaseReq :=
  ReleaseReq.new b.tag b.commitish b.name b.body b.draft b.prerelease

/-! ## DeploymentStatusReq and its builder, src/rep.rs lines 750 to 822 -/

/-- The DeploymentStatusReq record of src/rep.rs: a mandatory state and two
    optional fields. -/
structure DeploymentStatusReq where
  state : State
  target_url : Option String
  description : Option String
deriving DecidableEq, Repr

/-- The manual Encodable impl for DeploymentStatusReq: state at index zero,
    then target_url and description in order, each emitted only when present
    after an index increment. -/
def encodeDeploymentStatusReq (r : DeploymentStatusReq) : String :=
  let st : Nat × String := (0, emitStructField "state" 0 (encodeState r.state))
  let st := emitOptional "target_url" r.target_url.isSome (encodeOptStr r.target_url) st
  let st := emitOptional "description" r.description.isSome (encodeOptStr r.description) st
  emitStruct 1 st.2

/-- The DeploymentStatusReqBuilder of src/rep.rs. -/
structure DeploymentStatusReqBuilder where
  state : State
  target_url : Option String := none
  description : Option String := none

/-- DeploymentStatusReqBuilder::new: only the mandatory state is set. -/
def DeploymentStatusReqBuilder.new (state : State) : DeploymentStatusReqBuilder :=
  { state := state }

/-- The setter named target_url in the source. -/
def DeploymentStatusReqBuilder.set_target_url (b : DeploymentStatusReqBuilder)
    (url : String) : DeploymentStatusReqBuilder := { b with target_url := some url }

/-- The setter named description in the source. -/
def DeploymentStatusReqBuilder.set_description (b : DeploymentStatusReqBuilder)
    (desc : String) : DeploymentStatusReqBuilder := { b with description := some desc }

/-- DeploymentStatusReqBuilder::build. -/
def DeploymentStatusReqBuilder.build (b : DeploymentStatusReqBuilder) : DeploymentStatusReq :=
  { state := b.state, target_url := b.target_url, description := b.description }

/-- DeploymentStatusReq::builder. -/
def DeploymentStatusReq.builder (state : State) : DeploymentStatusReqBuilder :=
  DeploymentStatusReqBuilder.new state

/-! ## StatusReq and its builder, src/rep.rs lines 837 to 921 -/

/-- The StatusReq record of src/rep.rs: a mandatory state and three optional
    fields. -/
structure StatusReq where
  state : State
  target_url : Option String
  description : Option String
  context : Option String
deriving DecidableEq, Repr

/-- The manual Encodable impl for StatusReq: unlike the sibling impls, every
    emit_struct_field call in the source passes the literal index zero, with
    no running index; present fields are still emitted in declaration order,
    but no field after the first ever receives a nonzero index. -/
def encodeStatusReq (r : StatusReq) : String :=
  emitStruct 1
    (emitStructField "state" 0 (encodeState r.state)
      ++ (if r.target_url.isSome then emitStructField "target_url" 0 (encodeOptStr r.target_url) else "")
      ++ (if r.description.isSome then emitStructField "description" 0 (encodeOptStr r.description) else "")
      ++ (if r.context.isSome then emitStructField "context" 0 (encodeOptStr r.context) else ""))

/-- StatusReq::new. -/
def StatusReq.new (state : State) (target_url descr context : Option String) : StatusReq :=
  { state := state, target_url := target_url, description := descr, context := context }

/-- The StatusBuilder of src/rep.rs. -/
structure StatusBuilder where
  state : State
  target_url : Option String := none
  description : Option String := none
  context : Option String := none

/-- StatusBuilder::new: only the mandatory state is set. -/
def StatusBuilder.new (state : State) : StatusBuilder := { state := state }

/-- The setter named target_url in the source. -/
def StatusBuilder.set_target_url (b : StatusBuilder) (url : String) : StatusBuilder :=
  { b with target_url := some url }

/-- The setter named description in the source. -/
def StatusBuilder.set_description (b : StatusBuilder) (desc : String) : StatusBuilder :=
  { b with description := some desc }

/-- The setter named context in the source. -/
def StatusBuilder.set_context (b : StatusBuilder) (ctx : String) : StatusBuilder :=
  { b with context := some ctx }

/-- StatusBuilder::build, which forwards to StatusReq::new. -/
def StatusBuilder.build (b : StatusBuilder) : StatusReq :=
  StatusReq.new b.state b.target_url b.description b.context

/-- StatusReq::builder. -/
def StatusReq.builder (state : State) : StatusBuilder := StatusBuilder.new state

/-! ## The DateTime deserializer of src/datetime.rs -/

/-- The DateTime newtype of src/datetime.rs, wrapping a chrono UTC datetime:
    a single instant modelled by its seconds since the Unix epoch, at the
    second resolution used by the integer decoding path. -/
structure DateTime where
  secs : Int
deriving DecidableEq, Repr

/-- Modelled from chrono: the number of days from 1970-01-01 to the given
    proleptic Gregorian civil date, by the standard era decomposition of the
    civil calendar. -/
def daysFromCivil (y : Int) (m d : Nat) : Int :=
  let y2 : Int := if m ≤ 2 then y - 1 else y
  let era : Int := Int.fdiv y2 400
  let yoe : Nat := (y2 - era * 400).toNat
  let mp : Nat := (m + 9) % 12
  let doy : Nat := (153 * mp + 2) / 5 + d - 1
  let doe : Nat := yoe * 365 + yoe / 4 - yoe / 100 + doy
  era * 146097 + (doe : Int) - 719468

/-- Modelled from chrono: the proleptic Gregorian civil date of the given
    number of days from 1970-01-01, the inverse of daysFromCivil. -/
def civilFromDays (z0 : Int) : Int × Nat × Nat :=
  let z : Int := z0 + 719468
  let era : Int := Int.fdiv z 146097
  let doe : Nat := (z - era * 146097).toNat
  let yoe : Nat := (doe - doe / 1460 + doe / 36524 - doe / 146096) / 365
  let doy : Nat := doe - (365 * yoe + yoe / 4 - yoe / 100)
  let mp : Nat := (5 * doy + 2) / 153
  let d : Nat := doy - (153 * mp + 2) / 5 + 1
  let m : Nat := if mp < 10 then mp + 3 else mp - 9
  let y : Int := (yoe : Int) + era * 400 + (if m ≤ 2 then 1 else 0)
  (y, m, d)

/-- Modelled from chrono: the first representable day, 1 January of year
    -262144, the minimum year of the chrono NaiveDate range, as days from
    the epoch. -/
def MIN_DAYS : Int := daysFromCivil (-262144) 1 1

/-- Modelled from chrono: the last representable day, 31 December of year
    262143, the maximum year of the chrono NaiveDate range, as days from the
    epoch. -/
def MAX_DAYS : Int := daysFromCivil 262143 12 31

/-- Modelled from chrono: the smallest epoch-second count representable as a
    chrono datetime. -/
def MIN_SECS : Int := MIN_DAYS * 86400

/-- Modelled from chrono: the largest epoch-second count representable as a
    chrono datetime, the last second of the last representable day. -/
def MAX_SECS : Int := MAX_DAYS * 86400 + 86399

/-- Modelled from chrono: the LocalResult of a timezone conversion, with the
    three outcomes matched by DateTimeVisitor::visit_i64. -/
inductive LocalResult (α : Type)
  | none
  | single (t : α)
  | ambiguous (t1 t2 : α)
deriving DecidableEq, Repr

/-- Modelled from chrono: Utc.timestamp_opt with zero nanoseconds. The UTC
    timezone has no offset transitions, so the result is Single exactly when
    the second count lies in the representable range and None otherwise; the
    Ambiguous outcome exists in the result type but is never produced for
    UTC. -/
def timestampOpt (v : Int) : LocalResult DateTime :=
  if MIN_SECS ≤ v ∧ v ≤ MAX_SECS then .single ⟨v⟩ else .none

/-- Decode errors of the DateTime deserializer: custom messages produced by
    the visitor through the serde custom error constructor, and type errors
    produced by the deserialization framework from the visitor expecting
    message. -/
inductive DecodeError
  | custom (msg : String)
  | invalidType (unexpected expected : String)
deriving DecidableEq, Repr

/-- The expecting message of DateTimeVisitor in src/datetime.rs. -/
def expectingMsg : String := "date time string or seconds since unix epoch"

/-- Two-digit zero-padded decimal rendering. -/
def pad2 (n : Nat) : String := if n < 10 then "0" ++ toString n else toString n

/-- Four-digit zero-padded decimal rendering. -/
def pad4 (n : Nat) : String :=
  if n < 10 then "000" ++ toString n
  else if n < 100 then "00" ++ toString n
  else if n < 1000 then "0" ++ toString n
  else toString n

/-- Modelled from chrono: the year as displayed, zero-padded to four digits,
    with a sign for years outside 0 to 9999. -/
def formatYear (y : Int) : String :=
  if y < 0 then "-" ++ pad4 (-y).toNat
  else if 9999 < y then "+" ++ toString y
  else pad4 y.toNat

/-- Modelled from chrono: the Display rendering of a UTC datetime, as
    interpolated into the visitor error messages. -/
def displayDateTime (t : DateTime) : String :=
  let days := Int.fdiv t.secs 86400
  let sod := (t.secs - days * 86400).toNat
  match civilFromDays days with
  | (y, m, d) =>
    formatYear y ++ "-" ++ pad2 m ++ "-" ++ pad2 d ++ " " ++
      pad2 (sod / 3600) ++ ":" ++ pad2 (sod / 60 % 60) ++ ":" ++ pad2 (sod % 60) ++ " UTC"

/-- The match of DateTimeVisitor::visit_i64 on the chrono conversion result
    (src/datetime.rs lines 70 to 83): None becomes the illegal-timestamp
    custom error naming the value, Ambiguous becomes the ambiguous-timestamp
    custom error naming the value and displaying both candidate instants, and
    Single succeeds with the converted instant. -/
def handleTimestampResult (v : Int) : LocalResult DateTime → Except DecodeError DateTime
  | .none => .error (.custom ("value is not a legal timestamp: " ++ toString v))
  | .ambiguous mn mx => .error (.custom
      ("value is an ambiguous timestamp: " ++ toString v ++ ", could be either of "
        ++ displayDateTime mn ++ ", " ++ displayDateTime mx))
  | .single t => .ok t

/-- DateTimeVisitor::visit_i64: convert the signed value through the chrono
    timestamp conversion and match on the result. -/
def visit_i64 (v : Int) : Except DecodeError DateTime :=
  handleTimestampResult v (timestampOpt v)

/-- The Rust cast of a u64 value to i64 performed by visit_u64: values below
    2 to the 63 are unchanged and larger values wrap around two-complement
    style, for every v below 2 to the 64. -/
def u64AsI64 (v : Nat) : Int :=
  if v < 2 ^ 63 then (v : Int) else (v : Int) - 2 ^ 64

/-- DateTimeVisitor::visit_u64 (src/datetime.rs lines 86 to 91): the unsigned
    value is cast to i64 with the as operator and handed to visit_i64. -/
def visit_u64 (v : Nat) : Except DecodeError DateTime :=
  visit_i64 (u64AsI64 v)

/-- The Gregorian leap-year test. -/
def isLeapYear (y : Int) : Bool := (y % 4 == 0 && y % 100 != 0) || y % 400 == 0

/-- Days in a month of the Gregorian calendar. -/
def daysInMonth (y : Int) (m : Nat) : Nat :=
  if m = 2 then (if isLeapYear y then 29 else 28)
  else if m = 4 ∨ m = 6 ∨ m = 9 ∨ m = 11 then 30
  else 31

/-- The numeric value of a decimal digit character, when it is one. -/
def digit? (c : Char) : Option Nat :=
  if c.isDigit then some (c.toNat - 48) else none

/-- Two decimal digit characters as a number. -/
def digits2 (a b : Char) : Option Nat := do
  pure ((← digit? a) * 10 + (← digit? b))

/-- Four decimal digit characters as a number. -/
def digits4 (a b c d : Char) : Option Nat := do
  pure ((← digits2 a b) * 100 + (← digits2 c d))

/-- Modelled from chrono: the FromStr parse of a UTC datetime string invoked
    by visit_str, restricted to the whole-second RFC 3339 form with the Z
    designator, which covers the UTC datetime strings of the upstream API;
    the result is the epoch-second count of the parsed instant, and any
    string outside the grammar or with an invalid calendar date is rejected. -/
def parseDateTimeStr (s : String) : Option Int :=
  match s.toList with
  | [a, b, c, d, s1, e, f, s2, g, h, s3, i, j, s4, k, l, s5, p, q, s6] =>
    if s1 = '-' ∧ s2 = '-' ∧ s3 = 'T' ∧ s4 = ':' ∧ s5 = ':' ∧ s6 = 'Z' then do
      let y ← digits4 a b c d
      let mo ← digits2 e f
      let dd ← digits2 g h
      let hh ← digits2 i j
      let mi ← digits2 k l
      let ss ← digits2 p q
      if 1 ≤ mo ∧ mo ≤ 12 ∧ 1 ≤ dd ∧ dd ≤ daysInMonth y mo ∧ hh < 24 ∧ mi < 60 ∧ ss < 60 then
        pure (daysFromCivil (y : Int) mo dd * 86400 + (hh * 3600 + mi * 60 + ss : Nat))
      else none
    else none
  | _ => none

/-- DateTimeVisitor::visit_str (src/datetime.rs lines 54 to 61): parse the
    string as a UTC datetime, wrapping a parse failure as a custom error
    carrying the parser diagnostic, modelled as a fixed message. -/
def visit_str (v : String) : Except DecodeError DateTime :=
  match parseDateTimeStr v with
  | some secs => .ok ⟨secs⟩
  | none => .error (.custom "input is not a valid RFC 3339 datetime string")

/-- A structured payload value as handed to the deserializer: a string, an
    integer, or a value of any other kind. -/
inductive Value
  | str (s : String)
  | num (n : Int)
  | other
deriving DecidableEq, Repr

/-- Modelled from serde with a self-describing format such as serde_json:
    deserialize_any dispatches on the native kind of the value, sending
    strings to visit_str, nonnegative integers (held as u64 by the parser) to
    visit_u64, negative integers to visit_i64, and all other kinds to an
    invalid-type error built from the visitor expecting message. -/
def deserializeAny (v : Value) : Except DecodeError DateTime :=
  match v with
  | .str s => visit_str s
  | .num n => if n < 0 then visit_i64 n else visit_u64 n.toNat
  | .other => .error (.invalidType "other value kind" expectingMsg)

/-- Modelled from serde with a compact format: deserialize_i64 requires the
    numeric form directly, sending an integer to visit_i64 and rejecting a
    string or any other kind with an invalid-type error. -/
def deserializeI64 (v : Value) : Except DecodeError DateTime :=
  match v with
  | .num n => visit_i64 n
  | .str _ => .error (.invalidType "string" expectingMsg)
  | .other => .error (.invalidType "other value kind" expectingMsg)

/-- The Deserialize impl for DateTime (src/datetime.rs lines 94 to 98): when
    the deserializer reports a human-readable format the value is decoded
    with deserialize_any, otherwise with deserialize_i64. -/
def decodeDateTime (isHumanReadable : Bool) (v : Value) : Except DecodeError DateTime :=
  if isHumanReadable then deserializeAny v else deserializeI64 v

/-! ## The star-status helper of src/stars.rs -/

/-- Modelled from the spec: the client error type of the surrounding crate is
    outside the specified core; its variants are taken from the match arms of
    Stars::is_starred, namely a server fault carrying an HTTP status code, a
    codec (payload decoding) error, and every other kind collapsed into one
    abstract variant. -/
inductive ErrorKind
  | fault (code : Nat) (error : String)
  | codec (msg : String)
  | other (msg : String)
deriving DecidableEq, Repr

/-- Stars::is_starred (src/stars.rs lines 18 to 39), as a function of the
    outcome of the underlying GET request: a successful response is mapped to
    true, then the error handler turns a fault with status 404 into a
    successful false, turns a codec error into a successful true, and
    propagates every other error unchanged. -/
def is_starred (resp : Except ErrorKind Unit) : Except ErrorKind Bool :=
  match resp.map (fun _ => true) with
  | .ok v => .ok v
  | .error e =>
    match e with
    | .fault 404 _ => .ok false
    | .codec _ => .ok true
    | otherwise => .error otherwise

/-! ## Claims about the DateTime decoder -/

/-- C1 (counterexample): the unsigned value 18446744073709551615 lies outside
    the representable signed 64-bit range, yet decoding does not fail with a
    range error: visit_u64 wraps it to minus one and returns the valid
    instant one second before the Unix epoch. -/
theorem visit_u64_max_is_not_range_error :
    visit_u64 18446744073709551615 = .ok ⟨-1⟩ ∧
    (visit_u64 18446744073709551615).isOk = true := ⟨rfl, rfl⟩

/-- C1 (amended): an unsigned input outside the signed 64-bit range is not
    range-checked by visit_u64; the cast wraps it two-complement style to a
    negative signed value, which is then decoded as a negative epoch-second
    count. -/
theorem visit_u64_wraps_outside_signed_range (v : Nat)
    (h1 : 2 ^ 63 ≤ v) (h2 : v < 2 ^ 64) :
    visit_u64 v = visit_i64 ((v : Int) - 2 ^ 64) ∧ (v : Int) - 2 ^ 64 < 0 := by
  constructor
  · unfold visit_u64 u64AsI64
    rw [if_neg (Nat.not_lt.mpr h1)]
  · have hv : (v : Int) < 2 ^ 64 := by exact_mod_cast h2
    exact sub_neg.mpr hv

/-- Witness for the amended C1 theorem at the largest u64 value. -/
theorem visit_u64_wraps_outside_signed_range_witness :
    visit_u64 18446744073709551615 = visit_i64 ((18446744073709551615 : Int) - 2 ^ 64) ∧
    (18446744073709551615 : Int) - 2 ^ 64 < 0 :=
  visit_u64_wraps_outside_signed_range 18446744073709551615 (by norm_num) (by norm_num)

/-- C5: visit_i64 is exactly the visitor match on the chrono conversion
    result, and an ambiguous conversion result always becomes the
    ambiguous-timestamp custom error naming the offending value and
    displaying both candidate instants; an ambiguous result is never
    resolved to a successful decode. -/
theorem ambiguous_timestamp_is_hard_error (v : Int) (t1 t2 : DateTime) :
    visit_i64 v = handleTimestampResult v (timestampOpt v) ∧
    handleTimestampResult v (.ambiguous t1 t2) = .error (.custom
      ("value is an ambiguous timestamp: " ++ toString v ++ ", could be either of "
        ++ displayDateTime t1 ++ ", " ++ displayDateTime t2)) ∧
    ∀ t : DateTime, handleTimestampResult v (.ambiguous t1 t2) ≠ .ok t :=
  ⟨rfl, rfl, fun _ h => Except.noConfusion h⟩

/-- C7: for every integer in the legal signed epoch-second range whose
    successor also lies in the range, the conversion is single-valued,
    decoding succeeds, decoding the same value again gives the same instant,
    and the successor decodes to the instant exactly one second later. -/
theorem visit_i64_deterministic_succ (n : Int)
    (h1 : MIN_SECS ≤ n) (h2 : n + 1 ≤ MAX_SECS) :
    timestampOpt n = .single ⟨n⟩ ∧
    visit_i64 n = .ok ⟨n⟩ ∧
    visit_i64 n = visit_i64 n ∧
    visit_i64 (n + 1) = .ok ⟨n + 1⟩ ∧
    (⟨n + 1⟩ : DateTime).secs = (⟨n⟩ : DateTime).secs + 1 := by
  have hn : MIN_SECS ≤ n ∧ n ≤ MAX_SECS := ⟨h1, by linarith⟩
  have hn1 : MIN_SECS ≤ n + 1 ∧ n + 1 ≤ MAX_SECS := ⟨by linarith, h2⟩
  refine ⟨?_, ?_, rfl, ?_, rfl⟩
  · unfold timestampOpt
    rw [if_pos hn]
  · unfold visit_i64 timestampOpt
    rw [if_pos hn]
    rfl
  · unfold visit_i64 timestampOpt
    rw [if_pos hn1]
    rfl

/-- Witness for the C7 theorem at the epoch itself. -/
theorem visit_i64_deterministic_succ_witness :
    timestampOpt 0 = .single ⟨0⟩ ∧
    visit_i64 0 = .ok ⟨0⟩ ∧
    visit_i64 0 = visit_i64 0 ∧
    visit_i64 (0 + 1) = .ok ⟨0 + 1⟩ ∧
    (⟨0 + 1⟩ : DateTime).secs = (⟨0⟩ : DateTime).secs + 1 :=
  visit_i64_deterministic_succ 0 (by decide) (by decide)

/-- C4: decoding dispatches on the caller-supplied human-readable flag: with
    the flag set, a textual value is routed to the string visitor and an
    in-range integer decodes successfully within the same decode operation
    (the concrete epoch string decodes to the epoch instant); with the flag
    unset, an integer is still decoded numerically but a textual value is
    rejected with an invalid-type error, so the textual form is not
    accepted. -/
theorem decode_dispatches_on_human_readable (s : String) (n : Int)
    (h1 : MIN_SECS ≤ n) (h2 : n ≤ MAX_SECS) :
    decodeDateTime true (.str s) = visit_str s ∧
    decodeDateTime true (.num n) = .ok ⟨n⟩ ∧
    decodeDateTime false (.num n) = .ok ⟨n⟩ ∧
    decodeDateTime false (.str s) = .error (.invalidType "string" expectingMsg) ∧
    decodeDateTime true (.str "1970-01-01T00:00:00Z") = .ok ⟨0⟩ := by
  have hok : visit_i64 n = .ok ⟨n⟩ := by
    unfold visit_i64 timestampOpt
    rw [if_pos ⟨h1, h2⟩]
    rfl
  have hany : deserializeAny (.num n) = .ok ⟨n⟩ := by
    show (if n < 0 then visit_i64 n else visit_u64 n.toNat) = .ok ⟨n⟩
    by_cases hneg : n < 0
    · rw [if_pos hneg]
      exact hok
    · rw [if_neg hneg]
      have hnn : 0 ≤ n := not_lt.mp hneg
      have hcast : (n.toNat : Int) = n := Int.toNat_of_nonneg hnn
      have hmax : MAX_SECS < (2 : Int) ^ 63 := by decide
      have hlt : n.toNat < 2 ^ 63 := by
        zify
        rw [hcast]
        exact lt_of_le_of_lt h2 hmax
      unfold visit_u64 u64AsI64
      rw [if_pos hlt, hcast]
      exact hok
  exact ⟨rfl, hany, hok, rfl, rfl⟩

/-- Witness for the C4 theorem at the epoch. -/
theorem decode_dispatches_on_human_readable_witness :
    decodeDateTime true (.str "x") = visit_str "x" ∧
    decodeDateTime true (.num 0) = .ok ⟨0⟩ ∧
    decodeDateTime false (.num 0) = .ok ⟨0⟩ ∧
    decodeDateTime false (.str "x") = .error (.invalidType "string" expectingMsg) ∧
    decodeDateTime true (.str "1970-01-01T00:00:00Z") = .ok ⟨0⟩ :=
  decode_dispatches_on_human_readable "x" 0 (by decide) (by decide)

/-! ## Claim about the star-status helper -/

/-- C9: is_starred maps a successful GET to a successful true; among errors,
    a fault carrying HTTP status 404 becomes a successful false and every
    fault with another status is propagated unchanged, a codec error becomes
    a successful true, and every other error kind is propagated unchanged. -/
theorem is_starred_error_mapping (code : Nat) (m1 m2 m3 : String) :
    is_starred (.ok ()) = .ok true ∧
    is_starred (.error (.fault code m1)) =
      (if code = 404 then .ok false else .error (.fault code m1)) ∧
    is_starred (.error (.codec m2)) = .ok true ∧
    is_starred (.error (.other m3)) = .error (.other m3) := by
  refine ⟨rfl, ?_, rfl, rfl⟩
  by_cases h : code = 404
  · subst h
    rw [if_pos rfl]
    rfl
  · rw [if_neg h]
    unfold is_starred
    simp only [Except.map]
    split
    · rename_i e err heq
      injection heq with hc he
      exact absurd hc h
    · rename_i e msg heq
      exact ErrorKind.noConfusion heq
    · rfl

/-! ## Claims about the sparse request encoders -/

/-- C2 (amended): for the sparse-encoded request builders, building with only
    the mandatory constructor fields set and encoding produces an object
    containing exactly the mandatory keys and nothing else: the deployment
    request carries only the wire name ref with the commit reference, the
    deployment-status and status requests carry only state, and the pull
    edit, which has no mandatory field, encodes to the empty object; the
    deployment builder constructed with the commit reference test encodes to
    exactly the object of the spec. The release builder is the exception and
    is excluded, since its derived encoder emits a null placeholder for every
    unset optional field. -/
theorem mandatory_only_builders_encode_mandatory_keys (cref : String) (st : State) :
    encodeDeploymentReq ((DeploymentReqBuilder.new cref).build) =
      "\x7b" ++ escapeStr "ref" ++ ":" ++ escapeStr cref ++ "\x7d" ∧
    encodeDeploymentReq ((DeploymentReqBuilder.new "test").build) = "\x7b\"ref\":\"test\"\x7d" ∧
    encodeDeploymentStatusReq ((DeploymentStatusReqBuilder.new st).build) =
      "\x7b" ++ escapeStr "state" ++ ":" ++ encodeState st ++ "\x7d" ∧
    encodeStatusReq ((StatusBuilder.new st).build) =
      "\x7b" ++ escapeStr "state" ++ ":" ++ encodeState st ++ "\x7d" ∧
    encodePullEdit (PullEditBuilder.new.build) = "\x7b\x7d" := by
  refine ⟨?_, rfl, ?_, ?_, rfl⟩
  · simp [encodeDeploymentReq, DeploymentReqBuilder.new, DeploymentReqBuilder.build,
      emitOptional, emitStruct, emitStructField, String.append_assoc]
  · simp [encodeDeploymentStatusReq, DeploymentStatusReqBuilder.new,
      DeploymentStatusReqBuilder.build, emitOptional, emitStruct, emitStructField,
      String.append_assoc]
  · simp [encodeStatusReq, StatusBuilder.new, StatusBuilder.build, StatusReq.new,
      emitStruct, emitStructField, String.append_assoc]

/-- C2 (counterexample): the release builder with only the mandatory tag set
    encodes every unset optional field as a null placeholder, so the output
    is not the object containing the mandatory key alone. -/
theorem release_mandatory_only_emits_nulls :
    encodeReleaseReq ((ReleaseBuilder.new "v1.0.0").build) =
      "\x7b\"tag_name\":\"v1.0.0\",\"target_commitish\":null,\"name\":null,\"body\":null,\"draft\":null,\"prerelease\":null\x7d" ∧
    encodeReleaseReq ((ReleaseBuilder.new "v1.0.0").build) ≠ "\x7b\"tag_name\":\"v1.0.0\"\x7d" :=
  ⟨rfl, by decide⟩

/-- C3 (failing input): present fields of a status request are emitted in
    declaration order, but the encoder passes index zero for every field, so
    with two fields present no separating comma is written between them and
    the output is not a well-formed JSON object. -/
theorem status_req_missing_separator :
    encodeStatusReq (((StatusBuilder.new State.pending).set_target_url "http://host.com").build) =
      "\x7b\"state\":\"pending\"\"target_url\":\"http://host.com\"\x7d" ∧
    encodeStatusReq (((StatusBuilder.new State.pending).set_target_url "http://host.com").build) ≠
      "\x7b\"state\":\"pending\",\"target_url\":\"http://host.com\"\x7d" :=
  ⟨rfl, by decide⟩

/-- C6: for every request builder, an optional field explicitly set to an
    empty value (the false bool, the empty list, the empty string) counts as
    present and is emitted with exactly that empty value, while the same
    builder without those setter calls does not emit an empty placeholder for
    them, so the encoding distinguishes set-to-empty from never-set. This is
    shown for each builder in turn: deployment, deployment-status, status
    (whose emitted fields lack separating commas, as established for C3),
    pull-edit, and release, whose derived encoder emits a set-to-empty field
    as the empty value and a never-set field as null, which again
    distinguishes the two. -/
theorem explicit_empty_values_are_emitted (cref : String) (st : State) :
    encodeDeploymentReq (((((DeploymentReqBuilder.new cref).set_auto_merge false).set_required_contexts []).set_description "").build) =
      "\x7b" ++ escapeStr "ref" ++ ":" ++ escapeStr cref ++
        "," ++ escapeStr "auto_merge" ++ ":" ++ encodeOptBool (some false) ++
        "," ++ escapeStr "required_contexts" ++ ":" ++ encodeOptVecStr (some []) ++
        "," ++ escapeStr "description" ++ ":" ++ encodeOptStr (some "") ++ "\x7d" ∧
    encodeDeploymentReq ((DeploymentReqBuilder.new cref).build) =
      "\x7b" ++ escapeStr "ref" ++ ":" ++ escapeStr cref ++ "\x7d" ∧
    encodeDeploymentStatusReq ((((DeploymentStatusReqBuilder.new st).set_target_url "").set_description "").build) =
      "\x7b" ++ escapeStr "state" ++ ":" ++ encodeState st ++
        "," ++ escapeStr "target_url" ++ ":" ++ encodeOptStr (some "") ++
        "," ++ escapeStr "description" ++ ":" ++ encodeOptStr (some "") ++ "\x7d" ∧
    encodeDeploymentStatusReq ((DeploymentStatusReqBuilder.new st).build) =
      "\x7b" ++ escapeStr "state" ++ ":" ++ encodeState st ++ "\x7d" ∧
    encodeStatusReq (((((StatusBuilder.new st).set_target_url "").set_description "").set_context "").build) =
      "\x7b" ++ escapeStr "state" ++ ":" ++ encodeState st ++
        escapeStr "target_url" ++ ":" ++ encodeOptStr (some "") ++
        escapeStr "description" ++ ":" ++ encodeOptStr (some "") ++
        escapeStr "context" ++ ":" ++ encodeOptStr (some "") ++ "\x7d" ∧
    encodeStatusReq ((StatusBuilder.new st).build) =
      "\x7b" ++ escapeStr "state" ++ ":" ++ encodeState st ++ "\x7d" ∧
    encodePullEdit ((((PullEditBuilder.new.set_title "").set_body "").set_state "").build) =
      "\x7b" ++ escapeStr "title" ++ ":" ++ encodeOptStr (some "") ++
        "," ++ escapeStr "body" ++ ":" ++ encodeOptStr (some "") ++
        "," ++ escapeStr "state" ++ ":" ++ encodeOptStr (some "") ++ "\x7d" ∧
    encodePullEdit (PullEditBuilder.new.build) = "\x7b\x7d" ∧
    encodeReleaseReq ((((ReleaseBuilder.new "v1").set_body "").set_draft false).build) =
      "\x7b\"tag_name\":\"v1\",\"target_commitish\":null,\"name\":null,\"body\":\"\",\"draft\":false,\"prerelease\":null\x7d" ∧
    encodeOptStr (some "") ≠ encodeOptStr none ∧
    encodeOptBool (some false) ≠ encodeOptBool none ∧
    encodeOptBool (some false) = "false" ∧
    encodeOptVecStr (some ([] : List String)) = "[]" ∧
    encodeOptStr (some "") = "\"\"" := by
  refine ⟨?_, ?_, ?_, ?_, ?_, ?_, ?_, rfl, rfl, by decide, by decide, rfl, rfl, rfl⟩
  · simp [encodeDeploymentReq, DeploymentReqBuilder.new, DeploymentReqBuilder.build,
      DeploymentReqBuilder.set_auto_merge, DeploymentReqBuilder.set_required_contexts,
      DeploymentReqBuilder.set_description, emitOptional, emitStruct, emitStructField,
      String.append_assoc]
  · simp [encodeDeploymentReq, DeploymentReqBuilder.new, DeploymentReqBuilder.build,
      emitOptional, emitStruct, emitStructField, String.append_assoc]
  · simp [encodeDeploymentStatusReq, DeploymentStatusReqBuilder.new,
      DeploymentStatusReqBuilder.build, DeploymentStatusReqBuilder.set_target_url,
      DeploymentStatusReqBuilder.set_description, emitOptional, emitStruct,
      emitStructField, String.append_assoc]
  · simp [encodeDeploymentStatusReq, DeploymentStatusReqBuilder.new,
      DeploymentStatusReqBuilder.build, emitOptional, emitStruct, emitStructField,
      String.append_assoc]
  · simp [encodeStatusReq, StatusBuilder.new, StatusBuilder.build, StatusReq.new,
      StatusBuilder.set_target_url, StatusBuilder.set_description,
      StatusBuilder.set_context, emitStruct, emitStructField, String.append_assoc]
  · simp [encodeStatusReq, StatusBuilder.new, StatusBuilder.build, StatusReq.new,
      emitStruct, emitStructField, String.append_assoc]
  · simp [encodePullEdit, PullEditBuilder.new, PullEditBuilder.build,
      PullEditBuilder.set_title, PullEditBuilder.set_body, PullEditBuilder.set_state,
      emitOptionalI, emitStruct, emitStructField, String.append_assoc]

/-- C8: the deployment-status request built with state pending, the given
    target url and the given description encodes exactly to the expected
    object, with the enum-valued state field serialized as its lowercase
    textual tag and not as a numeric discriminant. -/
theorem deployment_status_req_encodes_expected :
    encodeDeploymentStatusReq ((((DeploymentStatusReqBuilder.new State.pending).set_target_url "http://host.com").set_description "desc").build) =
      "\x7b\"state\":\"pending\",\"target_url\":\"http://host.com\",\"description\":\"desc\"\x7d" ∧
    encodeState State.pending = "\"pending\"" :=
  ⟨rfl, rfl⟩

/-- C10: for every gist request the mandatory files field is encoded last,
    after whichever of the optional description and public fields are
    present, in that order; the gist constructed as in the source test with
    no description encodes to exactly the object of the test, with files
    last. -/
theorem gist_files_encoded_last (r : GistReq) :
    encodeGistReq r =
      "\x7b" ++
        (match r.description with
          | some d => escapeStr "description" ++ ":" ++ escapeStr d ++ ","
          | none => "") ++
        (match r.public with
          | some b => escapeStr "public" ++ ":" ++ encodeBool b ++ ","
          | none => "") ++
        escapeStr "files" ++ ":" ++ encodeFiles r.files ++ "\x7d" ∧
    encodeGistReq (GistReq.new none true [("foo", "bar")]) =
      "\x7b\"public\":true,\"files\":\x7b\"foo\":\x7b\"content\":\"bar\"\x7d\x7d\x7d" := by
  refine ⟨?_, rfl⟩
  rcases r with ⟨desc, pub, files⟩
  cases desc <;> cases pub <;>
    simp [encodeGistReq, emitOptionalI, emitStruct, emitStructField,
      encodeOptStr, encodeOptBool, String.append_assoc]
